import Mathlib

/-!
# Shallow embedding of the `DatabasePool` core (viva-engineering database pool)

This file embeds the replicated database connection pool manager
(`DatabasePool` and its lifecycle hooks) as executable Lean definitions and
proves the spec's testable properties about them.

Modelling conventions:
* Connections are identified by a natural-number id (`ConnId`, the driver's
  `threadId`).  The weak maps `transactions` / `holdTimers` keyed by connection
  identity become a `RegistryState` of functions `ConnId → _`.
* Driver callbacks are modelled by passing the driver's outcome explicitly:
  a `Bool`/`Option String` saying whether the statement succeeded, or a script
  `Nat → AttemptOutcome` giving the driver's answer to each successive attempt.
* Observable effects (log lines, driver statements, `destroy`, timer clears,
  `pool.end`) are collected into a `List Effect`, in issue order.
* The external capabilities that live outside this core (the `Logger`, the
  duration formatter `formatDuration`, the opaque `Query` object with its
  `kind`, `compile` and `isRetryable`) are parameters, per the spec's
  external-interface section.
-/

/-- Pool role, `'master' | 'replica'` in the source. -/
inductive Role
  | master
  | replica
deriving DecidableEq, Repr

/-- `TransactionType` enum: `'read only' | 'read write'`. -/
inductive TransactionType
  | readOnly
  | readWrite
deriving DecidableEq, Repr

/-- Log levels of the logger capability. -/
inductive LogLevel
  | error
  | warn
  | info
  | verbose
  | debug
  | silly
deriving DecidableEq, Repr

/-- Connection identity (the driver's `threadId`). -/
abbrev ConnId := Nat

/-- Observable effects of the pool manager, in issue order. -/
inductive Effect
  | log (lvl : LogLevel) (msg : String)
  | driverQuery (conn : ConnId) (stmt : String)
  | destroyConn (conn : ConnId)
  | clearHoldTimer (conn : ConnId)
  | poolEnd (role : Role)
deriving DecidableEq, Repr

/-- The connection-keyed side registries (`transactions`, `holdTimers` weak
maps).  `connectionRoles`/`connectionPools` only feed log fields and are not
tracked. -/
structure RegistryState where
  transactions : ConnId → Option TransactionType
  holdTimerActive : ConnId → Bool

/-- Registry with no transactions and no hold timers. -/
def emptyRegistry : RegistryState :=
  { transactions := fun _ => none, holdTimerActive := fun _ => false }

/-- `transactions.set(connection, tt)`. -/
def setTransaction (st : RegistryState) (conn : ConnId) (tt : TransactionType) :
    RegistryState :=
  { st with transactions := fun c => if c = conn then some tt else st.transactions c }

/-- `transactions.delete(connection)`. -/
def deleteTransaction (st : RegistryState) (conn : ConnId) : RegistryState :=
  { st with transactions := fun c => if c = conn then none else st.transactions c }

/-- The rejection message of `commitTransaction` when no transaction is
registered. -/
def noCommitMsg : String := "Cannot commit transaction; none is running"

/-- The rejection message of `rollbackTransaction` when no transaction is
registered. -/
def noRollbackMsg : String := "Cannot rollback transaction; none is running"

/-- `DatabasePool.startTransaction`, lines 226-261 of the source.  The chosen
connection (read pool for read-only, write pool for read-write) is `conn`;
`driverOk` is whether the `start transaction ...` statement succeeds.  Note the
source calls `transactions.set(connection, transactionType)` BEFORE issuing the
statement and never removes the entry on failure.  Returns the emitted actions,
the new registry state and the promise outcome. -/
def startTransaction (st : RegistryState) (tt : TransactionType) (conn : ConnId)
    (driverOk : Bool) : List Effect × RegistryState × Except String ConnId :=
  let stmt := match tt with
    | TransactionType.readOnly => "start transaction read only"
    | TransactionType.readWrite => "start transaction read write"
  let st1 := setTransaction st conn tt
  if driverOk then
    ([Effect.log .debug "Starting new MySQL transaction",
      Effect.driverQuery conn stmt],
     st1, Except.ok conn)
  else
    ([Effect.log .debug "Starting new MySQL transaction",
      Effect.driverQuery conn stmt,
      Effect.log .error "Failed to start MySQL transaction"],
     st1, Except.error "start transaction failed")

/-- `DatabasePool.commitTransaction`, lines 263-304 of the source.  `driverOk`
is whether the `commit` statement succeeds. -/
def commitTransaction (st : RegistryState) (conn : ConnId) (driverOk : Bool) :
    List Effect × RegistryState × Except String Unit :=
  match st.transactions conn with
  | none =>
      ([Effect.log .error "Attempted to commit a transaction when none was running"],
       st, Except.error noCommitMsg)
  | some _ =>
      if driverOk then
        ([Effect.log .debug "Commiting MySQL transaction",
          Effect.driverQuery conn "commit",
          Effect.log .debug "Commit successful"],
         deleteTransaction st conn, Except.ok ())
      else
        ([Effect.log .debug "Commiting MySQL transaction",
          Effect.driverQuery conn "commit",
          Effect.log .warn "Failed to commit transaction"],
         st, Except.error "commit failed")

/-- `DatabasePool.rollbackTransaction`, lines 306-347 of the source.
`driverOk` is whether the `rollback` statement succeeds. -/
def rollbackTransaction (st : RegistryState) (conn : ConnId) (driverOk : Bool) :
    List Effect × RegistryState × Except String Unit :=
  match st.transactions conn with
  | none =>
      ([Effect.log .error "Attempted to rollback a transaction when none was running"],
       st, Except.error noRollbackMsg)
  | some _ =>
      if driverOk then
        ([Effect.log .debug "Rolling back MySQL transaction",
          Effect.driverQuery conn "rollback",
          Effect.log .debug "Rollback successful"],
         deleteTransaction st conn, Except.ok ())
      else
        ([Effect.log .debug "Rolling back MySQL transaction",
          Effect.driverQuery conn "rollback",
          Effect.log .warn "Failed to rollback transaction"],
         st, Except.error "rollback failed")

/-- The release hook `onRelease`, lines 406-429 of the source: if a transaction
is registered for the connection, log an error and force a rollback through
`DatabasePool.rollbackTransaction`; then log the release; then cancel the
held-too-long timer if one is set.  All of these actions happen inside the
release hook, before the connection is available to be checked out again.
`rollbackDriverOk` is the driver outcome of the forced `rollback` statement. -/
def onRelease (st : RegistryState) (conn : ConnId) (rollbackDriverOk : Bool) :
    List Effect × RegistryState :=
  let forced : List Effect × RegistryState :=
    match st.transactions conn with
    | some _ =>
        let r := rollbackTransaction st conn rollbackDriverOk
        (Effect.log .error
            "A connection was released that still had an open transaction; Forcing rollback"
          :: r.1, r.2.1)
    | none => ([], st)
  let released := forced.1 ++ [Effect.log .silly "MySQL connection released"]
  if forced.2.holdTimerActive conn then
    (released ++ [Effect.clearHoldTimer conn],
     { forced.2 with
        holdTimerActive := fun c => if c = conn then false else forced.2.holdTimerActive c })
  else
    (released, forced.2)

/-- Number of `rollback` statements issued to connection `conn` in an action
trace. -/
def countRollbacks (acts : List Effect) (conn : ConnId) : Nat :=
  acts.countP (fun a => a = Effect.driverQuery conn "rollback")

/-- Whether an action trace contains an error-level log line. -/
def hasErrorLog (acts : List Effect) : Bool :=
  acts.any (fun a => match a with | Effect.log .error _ => true | _ => false)

/-- Whether an action trace issues any driver statement (`connection.query`). -/
def hasDriverQuery (acts : List Effect) : Bool :=
  acts.any (fun a => match a with | Effect.driverQuery _ _ => true | _ => false)

deriving instance DecidableEq for Except

/-- A driver error as seen by `runQuery`: the driver's `fatal` flag, the value
the query capability's `isRetryable` predicate returns for it, and its code. -/
structure DriverError where
  fatal : Bool
  retryable : Bool
  code : String
deriving DecidableEq, Repr

/-- The driver's answer to one execution attempt of the compiled statement. -/
inductive AttemptOutcome
  | ok
  | err (e : DriverError)
deriving DecidableEq, Repr

/-- One retry scheduled by the `retry` closure of `runQuery`: the
`remainingRetries` budget at scheduling time, the computed backoff delay in
milliseconds, and the connection the retry will run on. -/
structure RetrySchedule where
  remaining : Nat
  backoff : Int
  conn : ConnId
deriving DecidableEq, Repr

/-- Observable trace of one logical `runQuery` call: number of attempts made,
the `remainingRetries` budget seen at each attempt (in order), the connection
each attempt ran on, the retries scheduled, whether `connection.destroy()` was
called, and the promise outcome. -/
structure RunTrace where
  attempts : Nat
  budgets : List Nat
  conns : List ConnId
  schedules : List RetrySchedule
  destroyed : Bool
  result : Except DriverError Unit
deriving DecidableEq, Repr

/-- `DatabasePool.runQuery`, lines 101-208 of the source, with the driver's
outcome per attempt given by `script` (attempt `idx` gets `script idx`).
`remaining` is `remainingRetries = retries == null ? 3 : retries`.  Branches,
as in the source `onError`:
* success: resolve;
* `error.fatal`: force-release, `connection.destroy()`, reject — no retry;
* `query.isRetryable(error)` and budget non-zero: schedule a retry after
  `(4 - remainingRetries) ** 2 * 500` ms on the SAME connection with budget
  decremented; budget zero: reject;
* otherwise: reject. -/
def runQueryGo (script : Nat → AttemptOutcome) (conn : ConnId) (idx : Nat)
    (remaining : Nat) : RunTrace :=
  match script idx with
  | AttemptOutcome.ok =>
      { attempts := 1, budgets := [remaining], conns := [conn], schedules := [],
        destroyed := false, result := Except.ok () }
  | AttemptOutcome.err e =>
      if e.fatal then
        { attempts := 1, budgets := [remaining], conns := [conn], schedules := [],
          destroyed := true, result := Except.error e }
      else if e.retryable then
        match remaining with
        | 0 =>
            { attempts := 1, budgets := [0], conns := [conn], schedules := [],
              destroyed := false, result := Except.error e }
        | r + 1 =>
            let backoff : Int := (4 - ((r + 1 : Nat) : Int)) ^ 2 * 500
            let rest := runQueryGo script conn (idx + 1) r
            { attempts := rest.attempts + 1,
              budgets := (r + 1) :: rest.budgets,
              conns := conn :: rest.conns,
              schedules := ⟨r + 1, backoff, conn⟩ :: rest.schedules,
              destroyed := rest.destroyed,
              result := rest.result }
      else
        { attempts := 1, budgets := [remaining], conns := [conn], schedules := [],
          destroyed := false, result := Except.error e }

/-- Entry point of `runQuery`: the hidden `retries` parameter is `none` for
outside callers, and `remainingRetries = retries == null ? 3 : retries`.
Recursive retries always pass an explicit decremented number, so evaluating
the `null` default once at entry is equivalent to the source's per-attempt
computation. -/
def runQuery (script : Nat → AttemptOutcome) (conn : ConnId)
    (retries : Option Nat) : RunTrace :=
  runQueryGo script conn 0 (retries.getD 3)

/-- The `Query` capability as the routing code sees it: `isSelect` models
`query instanceof SelectQuery` (the `kind` discriminator of the spec; the
`SelectQuery` class itself lives in the repository's `./query` module, outside
the given sources). -/
structure QueryCap where
  isSelect : Bool
  template : String

/-- Identity of an underlying `mysql` pool object. -/
abbrev PoolId := Nat

/-- The two pools owned by a `DatabasePool`: `this.master` and `this.replica`. -/
structure DBPools where
  master : PoolId
  replica : PoolId

/-- `getReadConnection`, lines 55-65: acquires from `this.replica`. -/
def getReadConnection (db : DBPools) : PoolId := db.replica

/-- `getWriteConnection`, lines 67-77: acquires from `this.master`. -/
def getWriteConnection (db : DBPools) : PoolId := db.master

/-- The pool `DatabasePool.query` (lines 88-99) acquires its connection from:
`isSelect ? await this.getReadConnection() : await this.getWriteConnection()`. -/
def queryAcquiresFrom (db : DBPools) (q : QueryCap) : PoolId :=
  if q.isSelect then getReadConnection db else getWriteConnection db

/-- One pool's configuration, the fields used to build the url. -/
structure PoolConfigModel where
  host : String
  port : Nat
  database : String
deriving DecidableEq, Repr

/-- `ClusterConfig`: the master and replica pool configurations. -/
structure ClusterConfig where
  master : PoolConfigModel
  replica : PoolConfigModel

/-- The url interpolation `mysql://host:port/database`. -/
def poolUrl (c : PoolConfigModel) : String :=
  "mysql://" ++ c.host ++ ":" ++ toString c.port ++ "/" ++ c.database

/-- The two public url fields of a `DatabasePool`. -/
structure DatabasePoolUrls where
  masterUrl : String
  replicaUrl : String
deriving DecidableEq, Repr

/-- The `DatabasePool` constructor, lines 47-53: both `masterUrl` and
`replicaUrl` are interpolated from `config.master` (line 52 reads
`config.master.host`, `config.master.port`, `config.master.database`). -/
def mkDatabasePoolUrls (config : ClusterConfig) : DatabasePoolUrls :=
  { masterUrl := poolUrl config.master,
    replicaUrl := poolUrl config.master }

/-- A `process.hrtime` pair: (seconds, nanoseconds). -/
abbrev Hrtime := Nat × Nat

/-- The value `testPool` resolves with. -/
structure TestResult where
  timeToConnection : Hrtime
  duration : Hrtime
deriving DecidableEq, Repr

/-- The driver-level outcome of one `testPool` run: acquisition fails with an
error code, or the `select version()` round trip fails, or both steps succeed
with the measured times. -/
inductive PoolTestOutcome
  | acquireFail (code : String)
  | queryFail (ttc dur : Hrtime) (code : String)
  | queryOk (ttc dur : Hrtime)
deriving DecidableEq, Repr

/-- `testPool`, lines 462-497: rejects with the acquisition error, or rejects
with the round-trip error (after releasing the connection), or resolves with
the measured `timeToConnection` and `duration`. -/
def testPool : PoolTestOutcome → Except String TestResult
  | PoolTestOutcome.acquireFail code => Except.error code
  | PoolTestOutcome.queryFail _ _ code => Except.error code
  | PoolTestOutcome.queryOk ttc dur => Except.ok ⟨ttc, dur⟩

/-- A per-pool healthcheck result record. -/
structure HealthcheckResult where
  available : Bool
  url : String
  timeToConnection : Option String := none
  duration : Option String := none
  warning : Option String := none
  info : Option String := none
deriving DecidableEq, Repr

/-- The warning attached to slow healthchecks. -/
def slowWarning : String := "Connection slower than 50ms"

/-- The free `healthcheck` function, lines 431-455.  `fd` is the external
`formatDuration` capability.  The slow condition is the source's
`result.duration[0] > 0 || result.duration[1] / 10e5 > 50` (JavaScript `10e5`
is 1000000, and the division is exact, hence the rational cast).  The
function is total: every driver outcome, including failures, yields a result
record — failures are captured, never propagated. -/
def healthcheck (fd : Hrtime → String) (url : String) (o : PoolTestOutcome) :
    HealthcheckResult :=
  match testPool o with
  | Except.ok r =>
      { available := true, url := url,
        timeToConnection := some (fd r.timeToConnection),
        duration := some (fd r.duration),
        warning :=
          if 0 < r.duration.1 ∨ (50 : ℚ) < (r.duration.2 : ℚ) / 1000000 then
            some slowWarning
          else
            none }
  | Except.error code =>
      { available := false, url := url, info := some code }

/-- The pair of per-pool results `DatabasePool.healthcheck` resolves with. -/
structure HealthcheckResults where
  master : HealthcheckResult
  replica : HealthcheckResult
deriving DecidableEq, Repr

/-- `DatabasePool.healthcheck`, lines 210-217: runs the free `healthcheck`
against `this.master` with `this.masterUrl` and against `this.replica` with
`this.replicaUrl`. -/
def dbHealthcheck (fd : Hrtime → String) (urls : DatabasePoolUrls)
    (masterOutcome replicaOutcome : PoolTestOutcome) : HealthcheckResults :=
  { master := healthcheck fd urls.masterUrl masterOutcome,
    replica := healthcheck fd urls.replicaUrl replicaOutcome }

/-- `closePool`, lines 363-373: calls `pool.end` and resolves or rejects with
the driver's outcome (`none` = close succeeded, `some code` = close failed). -/
def closePool (role : Role) (endOutcome : Option String) :
    List Effect × Except String Unit :=
  ([Effect.poolEnd role],
   match endOutcome with
   | none => Except.ok ()
   | some code => Except.error code)

/-- Trace of `DatabasePool.destroy`: the effects issued and the aggregate
promise outcome. -/
structure DestroyTrace where
  effects : List Effect
  result : Except String (List Unit)
deriving DecidableEq, Repr

/-- `DatabasePool.destroy`, lines 219-224:
`Promise.all([closePool(this.master), closePool(this.replica)])`.  Both
`closePool` calls run eagerly when the array is built, so both `pool.end`
calls are issued regardless of either outcome; the aggregate resolves only
when both resolve and rejects if either rejects (with the first rejection —
modelled here as the master's when both fail). -/
def destroy (masterEnd replicaEnd : Option String) : DestroyTrace :=
  let m := closePool Role.master masterEnd
  let r := closePool Role.replica replicaEnd
  { effects := m.1 ++ r.1,
    result :=
      match m.2, r.2 with
      | Except.ok _, Except.ok _ => Except.ok [(), ()]
      | Except.error e, _ => Except.error e
      | _, Except.error e => Except.error e }

/-- A sample retryable, non-fatal driver error (a deadlock). -/
def retryableErrEx : DriverError :=
  { fatal := false, retryable := true, code := "ER_LOCK_DEADLOCK" }

/-- A sample fatal driver error whose `isRetryable` classification is
nonetheless `true` (a dropped connection). -/
def fatalErrEx : DriverError :=
  { fatal := true, retryable := true, code := "PROTOCOL_CONNECTION_LOST" }

theorem runQueryGo_ok {script : Nat → AttemptOutcome} {idx : Nat}
    (conn : ConnId) (remaining : Nat) (h : script idx = AttemptOutcome.ok) :
    runQueryGo script conn idx remaining =
      { attempts := 1, budgets := [remaining], conns := [conn], schedules := [],
        destroyed := false, result := Except.ok () } := by
  unfold runQueryGo
  rw [h]

theorem runQueryGo_fatal {script : Nat → AttemptOutcome} {idx : Nat}
    {e : DriverError} (conn : ConnId) (remaining : Nat)
    (h : script idx = AttemptOutcome.err e) (hf : e.fatal = true) :
    runQueryGo script conn idx remaining =
      { attempts := 1, budgets := [remaining], conns := [conn], schedules := [],
        destroyed := true, result := Except.error e } := by
  unfold runQueryGo
  rw [h]
  simp [hf]

theorem runQueryGo_nonretryable {script : Nat → AttemptOutcome} {idx : Nat}
    {e : DriverError} (conn : ConnId) (remaining : Nat)
    (h : script idx = AttemptOutcome.err e) (hf : e.fatal = false)
    (hr : e.retryable = false) :
    runQueryGo script conn idx remaining =
      { attempts := 1, budgets := [remaining], conns := [conn], schedules := [],
        destroyed := false, result := Except.error e } := by
  unfold runQueryGo
  rw [h]
  simp [hf, hr]

theorem runQueryGo_retry_exhausted {script : Nat → AttemptOutcome} {idx : Nat}
    {e : DriverError} (conn : ConnId)
    (h : script idx = AttemptOutcome.err e) (hf : e.fatal = false)
    (hr : e.retryable = true) :
    runQueryGo script conn idx 0 =
      { attempts := 1, budgets := [0], conns := [conn], schedules := [],
        destroyed := false, result := Except.error e } := by
  unfold runQueryGo
  rw [h]
  simp [hf, hr]

theorem runQueryGo_retry {script : Nat → AttemptOutcome} {idx : Nat}
    {e : DriverError} (conn : ConnId) (r : Nat)
    (h : script idx = AttemptOutcome.err e) (hf : e.fatal = false)
    (hr : e.retryable = true) :
    runQueryGo script conn idx (r + 1) =
      { attempts := (runQueryGo script conn (idx + 1) r).attempts + 1,
        budgets := (r + 1) :: (runQueryGo script conn (idx + 1) r).budgets,
        conns := conn :: (runQueryGo script conn (idx + 1) r).conns,
        schedules := ⟨r + 1, (4 - ((r + 1 : Nat) : Int)) ^ 2 * 500, conn⟩ ::
          (runQueryGo script conn (idx + 1) r).schedules,
        destroyed := (runQueryGo script conn (idx + 1) r).destroyed,
        result := (runQueryGo script conn (idx + 1) r).result } := by
  conv_lhs => unfold runQueryGo
  rw [h]
  simp [hf, hr]

theorem runQueryGo_budgets_head (script : Nat → AttemptOutcome) (conn : ConnId)
    (idx remaining : Nat) :
    (runQueryGo script conn idx remaining).budgets.head? = some remaining := by
  cases h : script idx with
  | ok => simp [runQueryGo_ok conn remaining h]
  | err e =>
    cases hf : e.fatal with
    | true => simp [runQueryGo_fatal conn remaining h hf]
    | false =>
      cases hr : e.retryable with
      | false => simp [runQueryGo_nonretryable conn remaining h hf hr]
      | true =>
        cases remaining with
        | zero => simp [runQueryGo_retry_exhausted conn h hf hr]
        | succ r => simp [runQueryGo_retry conn r h hf hr]

theorem runQueryGo_budgets_chain (script : Nat → AttemptOutcome) (conn : ConnId)
    (idx remaining : Nat) :
    List.Chain' (fun a b => b < a) (runQueryGo script conn idx remaining).budgets := by
  induction remaining generalizing idx with
  | zero =>
    cases h : script idx with
    | ok => simp [runQueryGo_ok conn 0 h]
    | err e =>
      cases hf : e.fatal with
      | true => simp [runQueryGo_fatal conn 0 h hf]
      | false =>
        cases hr : e.retryable with
        | false => simp [runQueryGo_nonretryable conn 0 h hf hr]
        | true => simp [runQueryGo_retry_exhausted conn h hf hr]
  | succ r ih =>
    cases h : script idx with
    | ok => simp [runQueryGo_ok conn (r + 1) h]
    | err e =>
      cases hf : e.fatal with
      | true => simp [runQueryGo_fatal conn (r + 1) h hf]
      | false =>
        cases hr : e.retryable with
        | false => simp [runQueryGo_nonretryable conn (r + 1) h hf hr]
        | true =>
          rw [runQueryGo_retry conn r h hf hr]
          simp only
          refine List.chain'_cons'.mpr ⟨?_, ih (idx + 1)⟩
          intro b hb
          rw [runQueryGo_budgets_head script conn (idx + 1) r] at hb
          simp only [Option.mem_def, Option.some_inj] at hb
          omega

theorem runQueryGo_attempts_le (script : Nat → AttemptOutcome) (conn : ConnId)
    (idx remaining : Nat) :
    (runQueryGo script conn idx remaining).attempts ≤ remaining + 1 := by
  induction remaining generalizing idx with
  | zero =>
    cases h : script idx with
    | ok => simp [runQueryGo_ok conn 0 h]
    | err e =>
      cases hf : e.fatal with
      | true => simp [runQueryGo_fatal conn 0 h hf]
      | false =>
        cases hr : e.retryable with
        | false => simp [runQueryGo_nonretryable conn 0 h hf hr]
        | true => simp [runQueryGo_retry_exhausted conn h hf hr]
  | succ r ih =>
    cases h : script idx with
    | ok => simp [runQueryGo_ok conn (r + 1) h]
    | err e =>
      cases hf : e.fatal with
      | true => simp [runQueryGo_fatal conn (r + 1) h hf]
      | false =>
        cases hr : e.retryable with
        | false => simp [runQueryGo_nonretryable conn (r + 1) h hf hr]
        | true =>
          rw [runQueryGo_retry conn r h hf hr]
          have := ih (idx + 1)
          simp only
          omega

theorem runQueryGo_const_retryable (script : Nat → AttemptOutcome) (conn : ConnId)
    (e : DriverError) (hs : ∀ i, script i = AttemptOutcome.err e)
    (hf : e.fatal = false) (hr : e.retryable = true) (idx remaining : Nat) :
    (runQueryGo script conn idx remaining).attempts = remaining + 1 ∧
    (runQueryGo script conn idx remaining).result = Except.error e ∧
    (runQueryGo script conn idx remaining).schedules.length = remaining := by
  induction remaining generalizing idx with
  | zero =>
    rw [runQueryGo_retry_exhausted conn (hs idx) hf hr]
    exact ⟨rfl, rfl, rfl⟩
  | succ r ih =>
    rw [runQueryGo_retry conn r (hs idx) hf hr]
    obtain ⟨h1, h2, h3⟩ := ih (idx + 1)
    refine ⟨?_, h2, ?_⟩
    · simp only [h1]
    · simp only [List.length_cons, h3]

theorem runQueryGo_schedules_spec (script : Nat → AttemptOutcome) (conn : ConnId)
    (idx remaining : Nat) (s : RetrySchedule)
    (hmem : s ∈ (runQueryGo script conn idx remaining).schedules) :
    s.backoff = (4 - (s.remaining : Int)) ^ 2 * 500 ∧ s.conn = conn := by
  induction remaining generalizing idx with
  | zero =>
    exfalso
    cases h : script idx with
    | ok => rw [runQueryGo_ok conn 0 h] at hmem; simp at hmem
    | err e =>
      cases hf : e.fatal with
      | true => rw [runQueryGo_fatal conn 0 h hf] at hmem; simp at hmem
      | false =>
        cases hr : e.retryable with
        | false => rw [runQueryGo_nonretryable conn 0 h hf hr] at hmem; simp at hmem
        | true => rw [runQueryGo_retry_exhausted conn h hf hr] at hmem; simp at hmem
  | succ r ih =>
    cases h : script idx with
    | ok => rw [runQueryGo_ok conn (r + 1) h] at hmem; simp at hmem
    | err e =>
      cases hf : e.fatal with
      | true => rw [runQueryGo_fatal conn (r + 1) h hf] at hmem; simp at hmem
      | false =>
        cases hr : e.retryable with
        | false => rw [runQueryGo_nonretryable conn (r + 1) h hf hr] at hmem; simp at hmem
        | true =>
          rw [runQueryGo_retry conn r h hf hr] at hmem
          simp only [List.mem_cons] at hmem
          cases hmem with
          | inl heq => subst heq; exact ⟨rfl, rfl⟩
          | inr htl => exact ih (idx + 1) htl

theorem runQueryGo_conns_const (script : Nat → AttemptOutcome) (conn : ConnId)
    (idx remaining : Nat) (c : ConnId)
    (hmem : c ∈ (runQueryGo script conn idx remaining).conns) : c = conn := by
  induction remaining generalizing idx with
  | zero =>
    cases h : script idx with
    | ok => rw [runQueryGo_ok conn 0 h] at hmem; simpa using hmem
    | err e =>
      cases hf : e.fatal with
      | true => rw [runQueryGo_fatal conn 0 h hf] at hmem; simpa using hmem
      | false =>
        cases hr : e.retryable with
        | false => rw [runQueryGo_nonretryable conn 0 h hf hr] at hmem; simpa using hmem
        | true => rw [runQueryGo_retry_exhausted conn h hf hr] at hmem; simpa using hmem
  | succ r ih =>
    cases h : script idx with
    | ok => rw [runQueryGo_ok conn (r + 1) h] at hmem; simpa using hmem
    | err e =>
      cases hf : e.fatal with
      | true => rw [runQueryGo_fatal conn (r + 1) h hf] at hmem; simpa using hmem
      | false =>
        cases hr : e.retryable with
        | false => rw [runQueryGo_nonretryable conn (r + 1) h hf hr] at hmem; simpa using hmem
        | true =>
          rw [runQueryGo_retry conn r h hf hr] at hmem
          simp only [List.mem_cons] at hmem
          cases hmem with
          | inl heq => exact heq
          | inr htl => exact ih (idx + 1) htl

theorem healthcheck_url (fd : Hrtime → String) (url : String)
    (o : PoolTestOutcome) : (healthcheck fd url o).url = url := by
  cases o <;> rfl

theorem slow_condition_equiv (d1 d2 : Nat) :
    (0 < d1 ∨ (50 : ℚ) < (d2 : ℚ) / 1000000) ↔
    50000000 < d1 * 1000000000 + d2 := by
  have h2 : ((50 : ℚ) < (d2 : ℚ) / 1000000) ↔ 50000000 < d2 := by
    rw [lt_div_iff₀ (by norm_num : (0 : ℚ) < 1000000)]
    constructor
    · intro h
      exact_mod_cast (by linarith : (50000000 : ℚ) < (d2 : ℚ))
    · intro h
      have hq : (50000000 : ℚ) < (d2 : ℚ) := by exact_mod_cast h
      linarith
  rw [h2]
  omega

/-- C1: releasing a connection whose registry entry records an open
transaction makes the release hook log an error and issue the `rollback`
statement exactly once, inside the hook and hence before the connection is
available for reuse; releasing with no recorded transaction issues no
rollback and logs no error. -/
theorem release_with_open_transaction_forces_one_rollback
    (st : RegistryState) (conn : ConnId) (ok : Bool) :
    ((st.transactions conn).isSome →
       countRollbacks (onRelease st conn ok).1 conn = 1 ∧
       hasErrorLog (onRelease st conn ok).1 = true) ∧
    (st.transactions conn = none →
       countRollbacks (onRelease st conn ok).1 conn = 0 ∧
       hasErrorLog (onRelease st conn ok).1 = false) := by
  constructor
  · intro hsome
    obtain ⟨tt, htt⟩ := Option.isSome_iff_exists.mp hsome
    cases hti : st.transactions conn with
    | none => rw [hti] at htt; exact absurd htt (by simp)
    | some tt2 =>
      unfold onRelease rollbackTransaction
      rw [hti]
      cases ok with
      | true =>
        by_cases hTimer : ((deleteTransaction st conn).holdTimerActive conn) = true
        · simp [hTimer, countRollbacks, hasErrorLog]
        · simp only [Bool.not_eq_true] at hTimer
          simp [hTimer, countRollbacks, hasErrorLog]
      | false =>
        by_cases hTimer : (st.holdTimerActive conn) = true
        · simp [hTimer, countRollbacks, hasErrorLog]
        · simp only [Bool.not_eq_true] at hTimer
          simp [hTimer, countRollbacks, hasErrorLog]
  · intro hnone
    unfold onRelease
    rw [hnone]
    by_cases hTimer : (st.holdTimerActive conn) = true
    · simp [hTimer, countRollbacks, hasErrorLog]
    · simp only [Bool.not_eq_true] at hTimer
      simp [hTimer, countRollbacks, hasErrorLog]

/-- Witness for C1 at a concrete registry: connection 5 has an open
read-write transaction (one rollback, an error log), connection 9 has none
(no rollback, no error log). -/
theorem release_with_open_transaction_forces_one_rollback_witness :
    (countRollbacks
        (onRelease (setTransaction emptyRegistry 5 TransactionType.readWrite) 5 true).1 5 = 1 ∧
      hasErrorLog
        (onRelease (setTransaction emptyRegistry 5 TransactionType.readWrite) 5 true).1 = true) ∧
    (countRollbacks
        (onRelease (setTransaction emptyRegistry 5 TransactionType.readWrite) 9 true).1 9 = 0 ∧
      hasErrorLog
        (onRelease (setTransaction emptyRegistry 5 TransactionType.readWrite) 9 true).1 = false) :=
  ⟨(release_with_open_transaction_forces_one_rollback
      (setTransaction emptyRegistry 5 TransactionType.readWrite) 5 true).1 (by decide),
   (release_with_open_transaction_forces_one_rollback
      (setTransaction emptyRegistry 5 TransactionType.readWrite) 9 true).2 (by decide)⟩

/-- C3: `DatabasePool.query` acquires the connection for a select-kind query
from the replica (read) pool via `getReadConnection`, never from the master
(write) pool, and for a write-kind query from the master pool via
`getWriteConnection`, never from the replica pool. -/
theorem query_routes_select_to_replica_and_write_to_master
    (db : DBPools) (q : QueryCap) :
    (q.isSelect = true →
       queryAcquiresFrom db q = getReadConnection db ∧
       queryAcquiresFrom db q = db.replica ∧
       (db.replica ≠ db.master → queryAcquiresFrom db q ≠ db.master)) ∧
    (q.isSelect = false →
       queryAcquiresFrom db q = getWriteConnection db ∧
       queryAcquiresFrom db q = db.master ∧
       (db.master ≠ db.replica → queryAcquiresFrom db q ≠ db.replica)) := by
  constructor
  · intro h
    refine ⟨?_, ?_, ?_⟩ <;>
      simp [queryAcquiresFrom, getReadConnection, getWriteConnection, h]
  · intro h
    refine ⟨?_, ?_, ?_⟩ <;>
      simp [queryAcquiresFrom, getReadConnection, getWriteConnection, h]

/-- Witness for C3 with master pool 0 and replica pool 1: a select query is
routed to pool 1 and a write query to pool 0. -/
theorem query_routes_select_to_replica_and_write_to_master_witness :
    queryAcquiresFrom ⟨0, 1⟩ ⟨true, "select 1"⟩ = 1 ∧
    queryAcquiresFrom ⟨0, 1⟩ ⟨false, "update t"⟩ = 0 :=
  ⟨((query_routes_select_to_replica_and_write_to_master ⟨0, 1⟩
      ⟨true, "select 1"⟩).1 rfl).2.1,
   ((query_routes_select_to_replica_and_write_to_master ⟨0, 1⟩
      ⟨false, "update t"⟩).2 rfl).2.1⟩

/-- C4: when the driver reports a fatal error on the first execution,
`runQuery` makes exactly one attempt, calls `destroy()` on the connection,
schedules no retry, and rejects with that error — whatever the retry budget
and whatever `isRetryable` would say (no hypothesis on `e.retryable`). -/
theorem fatal_error_destroys_connection_and_rejects_without_retry
    (script : Nat → AttemptOutcome) (conn : ConnId) (retries : Option Nat)
    (e : DriverError) (h0 : script 0 = AttemptOutcome.err e)
    (hf : e.fatal = true) :
    (runQuery script conn retries).attempts = 1 ∧
    (runQuery script conn retries).destroyed = true ∧
    (runQuery script conn retries).schedules = [] ∧
    (runQuery script conn retries).result = Except.error e := by
  unfold runQuery
  rw [runQueryGo_fatal conn (retries.getD 3) h0 hf]
  exact ⟨rfl, rfl, rfl, rfl⟩

/-- Witness for C4: a fatal error that `isRetryable` would classify as
retryable still destroys the connection on attempt one and rejects. -/
theorem fatal_error_destroys_connection_and_rejects_without_retry_witness :
    (runQuery (fun _ => AttemptOutcome.err fatalErrEx) 3 none).attempts = 1 ∧
    (runQuery (fun _ => AttemptOutcome.err fatalErrEx) 3 none).destroyed = true ∧
    (runQuery (fun _ => AttemptOutcome.err fatalErrEx) 3 none).schedules = [] ∧
    (runQuery (fun _ => AttemptOutcome.err fatalErrEx) 3 none).result =
      Except.error fatalErrEx :=
  fatal_error_destroys_connection_and_rejects_without_retry
    (fun _ => AttemptOutcome.err fatalErrEx) 3 none fatalErrEx rfl rfl

/-- C7: committing or rolling back on a connection with no registered
transaction rejects with the dedicated no-transaction-running error and
issues no driver statement at all. -/
theorem commit_rollback_without_transaction_rejects_without_driver_call
    (st : RegistryState) (conn : ConnId) (ok : Bool)
    (h : st.transactions conn = none) :
    (commitTransaction st conn ok).2.2 = Except.error noCommitMsg ∧
    hasDriverQuery (commitTransaction st conn ok).1 = false ∧
    (rollbackTransaction st conn ok).2.2 = Except.error noRollbackMsg ∧
    hasDriverQuery (rollbackTransaction st conn ok).1 = false := by
  unfold commitTransaction rollbackTransaction
  rw [h]
  simp [hasDriverQuery]

/-- Witness for C7 on the empty registry. -/
theorem commit_rollback_without_transaction_rejects_without_driver_call_witness :
    (commitTransaction emptyRegistry 0 true).2.2 = Except.error noCommitMsg ∧
    hasDriverQuery (commitTransaction emptyRegistry 0 true).1 = false ∧
    (rollbackTransaction emptyRegistry 0 true).2.2 = Except.error noRollbackMsg ∧
    hasDriverQuery (rollbackTransaction emptyRegistry 0 true).1 = false :=
  commit_rollback_without_transaction_rejects_without_driver_call
    emptyRegistry 0 true rfl

/-- C9: `DatabasePool.destroy` issues `pool.end` on BOTH pools whatever the
outcomes (the `Promise.all` array is built eagerly, so a failing master close
never skips the replica close); it resolves exactly when both closes succeed
and rejects when either close fails. -/
theorem destroy_closes_both_pools_and_aggregates_failures
    (mEnd rEnd : Option String) :
    Effect.poolEnd Role.master ∈ (destroy mEnd rEnd).effects ∧
    Effect.poolEnd Role.replica ∈ (destroy mEnd rEnd).effects ∧
    ((destroy mEnd rEnd).result = Except.ok [(), ()] ↔
       mEnd = none ∧ rEnd = none) ∧
    (¬(mEnd = none ∧ rEnd = none) →
       ∃ msg, (destroy mEnd rEnd).result = Except.error msg) := by
  cases mEnd with
  | none =>
    cases rEnd with
    | none => simp [destroy, closePool]
    | some c => simp [destroy, closePool]
  | some c =>
    cases rEnd with
    | none => simp [destroy, closePool]
    | some d => simp [destroy, closePool]

/-- Witness for C9: with a successful master close and a failing replica
close, both `pool.end` calls are issued and the aggregate rejects. -/
theorem destroy_closes_both_pools_and_aggregates_failures_witness :
    Effect.poolEnd Role.master ∈ (destroy none (some "EPOOLCLOSE")).effects ∧
    Effect.poolEnd Role.replica ∈ (destroy none (some "EPOOLCLOSE")).effects ∧
    (∃ msg, (destroy none (some "EPOOLCLOSE")).result = Except.error msg) :=
  ⟨(destroy_closes_both_pools_and_aggregates_failures none (some "EPOOLCLOSE")).1,
   (destroy_closes_both_pools_and_aggregates_failures none (some "EPOOLCLOSE")).2.1,
   (destroy_closes_both_pools_and_aggregates_failures none (some "EPOOLCLOSE")).2.2.2
     (by simp)⟩

/-- C10: the constructor builds `replicaUrl` from the master configuration
(line 52 interpolates `config.master.*`), so the two public urls always
coincide, both equal the master url, and the replica side of `healthcheck`
reports the master's url — for every replica configuration. -/
theorem replica_url_built_from_master_config (config : ClusterConfig)
    (fd : Hrtime → String) (mo ro : PoolTestOutcome) :
    (mkDatabasePoolUrls config).replicaUrl = (mkDatabasePoolUrls config).masterUrl ∧
    (mkDatabasePoolUrls config).replicaUrl = poolUrl config.master ∧
    (dbHealthcheck fd (mkDatabasePoolUrls config) mo ro).replica.url =
      poolUrl config.master := by
  refine ⟨rfl, rfl, ?_⟩
  unfold dbHealthcheck
  rw [healthcheck_url]
  rfl

/-- C2 counterexample: with the budget left unspecified (the default,
`remainingRetries = 3`) and every attempt failing with a retryable
non-fatal error, `runQuery` makes FOUR attempts — the initial attempt plus
three retries — not three, and does attempt a 4th try after the 3rd
retryable failure. -/
theorem default_retry_budget_makes_four_attempts_not_three :
    (runQuery (fun _ => AttemptOutcome.err retryableErrEx) 0 none).attempts = 4 ∧
    ¬ (runQuery (fun _ => AttemptOutcome.err retryableErrEx) 0 none).attempts = 3 := by
  decide

/-- C2 (amended): on every logical `runQuery` call the remaining retry budget
strictly decreases from one attempt to the next and the call makes at most
`r + 1` attempts where `r = retries.getD 3`; when every attempt fails with a
retryable non-fatal error, exactly `r + 1` attempts are made (the initial
attempt plus `r` retries, 4 attempts total by default), exactly `r` retries
are scheduled — never an `(r+1)`th retry — and the call rejects with the
final error. -/
theorem retry_budget_monotone_and_exhaustion_rejects
    (conn : ConnId) (retries : Option Nat) :
    (∀ script : Nat → AttemptOutcome,
       List.Chain' (fun a b => b < a) (runQuery script conn retries).budgets ∧
       (runQuery script conn retries).attempts ≤ retries.getD 3 + 1) ∧
    (∀ (script : Nat → AttemptOutcome) (e : DriverError),
       (∀ i, script i = AttemptOutcome.err e) → e.fatal = false →
       e.retryable = true →
       (runQuery script conn retries).attempts = retries.getD 3 + 1 ∧
       (runQuery script conn retries).schedules.length = retries.getD 3 ∧
       (runQuery script conn retries).result = Except.error e) := by
  constructor
  · intro script
    exact ⟨runQueryGo_budgets_chain script conn 0 (retries.getD 3),
           runQueryGo_attempts_le script conn 0 (retries.getD 3)⟩
  · intro script e hs hf hr
    obtain ⟨h1, h2, h3⟩ :=
      runQueryGo_const_retryable script conn e hs hf hr 0 (retries.getD 3)
    exact ⟨h1, h3, h2⟩

/-- Witness for the amended C2 at the default budget: budgets decrease
3, 2, 1, 0; four attempts; three scheduled retries; rejection with the final
error. -/
theorem retry_budget_monotone_and_exhaustion_rejects_witness :
    List.Chain' (fun a b => b < a)
      (runQuery (fun _ => AttemptOutcome.err retryableErrEx) 0 none).budgets ∧
    (runQuery (fun _ => AttemptOutcome.err retryableErrEx) 0 none).attempts = 4 ∧
    (runQuery (fun _ => AttemptOutcome.err retryableErrEx) 0 none).schedules.length = 3 ∧
    (runQuery (fun _ => AttemptOutcome.err retryableErrEx) 0 none).result =
      Except.error retryableErrEx :=
  ⟨((retry_budget_monotone_and_exhaustion_rejects 0 none).1
      (fun _ => AttemptOutcome.err retryableErrEx)).1,
   ((retry_budget_monotone_and_exhaustion_rejects 0 none).2
      (fun _ => AttemptOutcome.err retryableErrEx) retryableErrEx
      (fun _ => rfl) rfl rfl).1,
   ((retry_budget_monotone_and_exhaustion_rejects 0 none).2
      (fun _ => AttemptOutcome.err retryableErrEx) retryableErrEx
      (fun _ => rfl) rfl rfl).2.1,
   ((retry_budget_monotone_and_exhaustion_rejects 0 none).2
      (fun _ => AttemptOutcome.err retryableErrEx) retryableErrEx
      (fun _ => rfl) rfl rfl).2.2⟩

/-- C5 counterexample: `startTransaction` registers the transaction entry
BEFORE issuing the `start transaction` statement (line 237 precedes the
`connection.query` call), so a failed `startTransaction` rejects yet leaves
the registry entry in place — the claim's "a failed startTransaction leaves
no entry" is false. -/
theorem failed_start_transaction_still_leaves_registry_entry :
    (startTransaction emptyRegistry TransactionType.readOnly 0 false).2.2 =
      Except.error "start transaction failed" ∧
    (startTransaction emptyRegistry TransactionType.readOnly 0 false).2.1.transactions 0 =
      some TransactionType.readOnly := by
  decide

/-- C5 (amended): the registry entry for a connection is created when
`startTransaction` is invoked, before the `start transaction` statement runs,
and therefore remains even when that statement fails; it is removed when
commit or rollback succeeds; and it is left intact when the commit statement
fails, the transaction then still being considered open. -/
theorem transaction_registry_entry_lifecycle (st : RegistryState)
    (tt : TransactionType) (conn : ConnId) (ok : Bool) :
    ((startTransaction st tt conn ok).2.1.transactions conn = some tt) ∧
    (st.transactions conn = some tt →
       ((commitTransaction st conn true).2.1.transactions conn = none ∧
        (commitTransaction st conn true).2.2 = Except.ok ()) ∧
       ((commitTransaction st conn false).2.1.transactions conn = some tt ∧
        (commitTransaction st conn false).2.2 = Except.error "commit failed") ∧
       ((rollbackTransaction st conn true).2.1.transactions conn = none ∧
        (rollbackTransaction st conn true).2.2 = Except.ok ()) ∧
       ((rollbackTransaction st conn false).2.1.transactions conn = some tt)) := by
  constructor
  · cases ok with
    | true => simp [startTransaction, setTransaction]
    | false => simp [startTransaction, setTransaction]
  · intro h
    unfold commitTransaction rollbackTransaction
    rw [h]
    simp [deleteTransaction, h]

/-- Witness for the amended C5 on a concrete registry: a fresh entry appears
even on a failed start; commit success clears it, commit failure keeps it,
rollback success clears it. -/
theorem transaction_registry_entry_lifecycle_witness :
    ((startTransaction emptyRegistry TransactionType.readWrite 2 false).2.1.transactions 2 =
       some TransactionType.readWrite) ∧
    ((commitTransaction (setTransaction emptyRegistry 2 TransactionType.readWrite) 2
        true).2.1.transactions 2 = none) ∧
    ((commitTransaction (setTransaction emptyRegistry 2 TransactionType.readWrite) 2
        false).2.1.transactions 2 = some TransactionType.readWrite) ∧
    ((rollbackTransaction (setTransaction emptyRegistry 2 TransactionType.readWrite) 2
        true).2.1.transactions 2 = none) :=
  ⟨(transaction_registry_entry_lifecycle emptyRegistry TransactionType.readWrite 2 false).1,
   (((transaction_registry_entry_lifecycle
        (setTransaction emptyRegistry 2 TransactionType.readWrite)
        TransactionType.readWrite 2 false).2 (by decide)).1).1,
   ((((transaction_registry_entry_lifecycle
        (setTransaction emptyRegistry 2 TransactionType.readWrite)
        TransactionType.readWrite 2 false).2 (by decide)).2).1).1,
   ((((transaction_registry_entry_lifecycle
        (setTransaction emptyRegistry 2 TransactionType.readWrite)
        TransactionType.readWrite 2 false).2 (by decide)).2).2).1.1⟩

/-- C6: every retry scheduled by `runQuery` while `remainingRetries = s.remaining`
waits exactly `(4 - s.remaining) ^ 2 * 500` milliseconds — a function of the
REMAINING budget, not the elapsed attempt count — and runs on the same
connection; instantiated at a configured budget of 6, the resulting delay
sequence 2000, 500, 0, 500, 2000, 4500 ms is not monotone. -/
theorem retry_backoff_from_remaining_budget_on_same_connection :
    (∀ (script : Nat → AttemptOutcome) (conn : ConnId) (retries : Option Nat)
       (s : RetrySchedule), s ∈ (runQuery script conn retries).schedules →
       s.backoff = (4 - (s.remaining : Int)) ^ 2 * 500 ∧ s.conn = conn) ∧
    ((runQuery (fun _ => AttemptOutcome.err retryableErrEx) 0 (some 6)).schedules.map
        (fun s => s.backoff) = [2000, 500, 0, 500, 2000, 4500] ∧
     ¬ List.Chain' (fun a b => a ≤ b)
        ((runQuery (fun _ => AttemptOutcome.err retryableErrEx) 0
            (some 6)).schedules.map (fun s => s.backoff))) := by
  refine ⟨?_, ?_, ?_⟩
  · intro script conn retries s hmem
    exact runQueryGo_schedules_spec script conn 0 (retries.getD 3) s hmem
  · decide
  · intro h
    have hm : (runQuery (fun _ => AttemptOutcome.err retryableErrEx) 0
        (some 6)).schedules.map (fun s => s.backoff) =
        [2000, 500, 0, 500, 2000, 4500] := by decide
    rw [hm, List.chain'_cons] at h
    exact absurd h.1 (by decide)

/-- Witness for C6: the first retry of a default-budget run is scheduled with
3 retries remaining, a 500 ms backoff, on the original connection 7. -/
theorem retry_backoff_from_remaining_budget_on_same_connection_witness :
    (⟨3, 500, 7⟩ : RetrySchedule).backoff =
      (4 - ((⟨3, 500, 7⟩ : RetrySchedule).remaining : Int)) ^ 2 * 500 ∧
    (⟨3, 500, 7⟩ : RetrySchedule).conn = 7 :=
  retry_backoff_from_remaining_budget_on_same_connection.1
    (fun _ => AttemptOutcome.err retryableErrEx) 7 none ⟨3, 500, 7⟩ (by decide)

/-- C8: the per-pool healthcheck is a total function — every driver outcome,
including acquisition and round-trip failures, is converted into a result
record, never propagated.  On success the record has `available = true`, the
formatted durations, no `info`, and carries the slow warning exactly when the
total round trip exceeds 50 ms, i.e. when the duration in nanoseconds
(seconds times 10^9 plus the nanosecond component) exceeds 50000000; on
acquisition or round-trip failure it has
`available = false` and `info` equal to the driver error code. -/
theorem healthcheck_captures_failures_and_flags_only_slow_roundtrips
    (fd : Hrtime → String) (url : String) (o : PoolTestOutcome) :
    (healthcheck fd url o).url = url ∧
    (∀ ttc dur, o = PoolTestOutcome.queryOk ttc dur →
       (healthcheck fd url o).available = true ∧
       (healthcheck fd url o).timeToConnection = some (fd ttc) ∧
       (healthcheck fd url o).duration = some (fd dur) ∧
       (healthcheck fd url o).info = none ∧
       ((healthcheck fd url o).warning = some slowWarning ↔
          50000000 < dur.1 * 1000000000 + dur.2) ∧
       ((healthcheck fd url o).warning = none ↔
          ¬ 50000000 < dur.1 * 1000000000 + dur.2)) ∧
    (∀ code, o = PoolTestOutcome.acquireFail code →
       (healthcheck fd url o).available = false ∧
       (healthcheck fd url o).info = some code) ∧
    (∀ ttc dur code, o = PoolTestOutcome.queryFail ttc dur code →
       (healthcheck fd url o).available = false ∧
       (healthcheck fd url o).info = some code) := by
  refine ⟨healthcheck_url fd url o, ?_, ?_, ?_⟩
  · rintro ttc dur rfl
    have hiff := slow_condition_equiv dur.1 dur.2
    have hw : (healthcheck fd url (PoolTestOutcome.queryOk ttc dur)).warning =
        if 0 < dur.1 ∨ (50 : ℚ) < (dur.2 : ℚ) / 1000000 then some slowWarning
        else none := rfl
    refine ⟨rfl, rfl, rfl, rfl, ?_, ?_⟩
    · rw [hw]
      by_cases hc : 0 < dur.1 ∨ (50 : ℚ) < (dur.2 : ℚ) / 1000000
      · rw [if_pos hc]
        exact iff_of_true rfl (hiff.mp hc)
      · rw [if_neg hc]
        exact iff_of_false (by simp) (fun hr => hc (hiff.mpr hr))
    · rw [hw]
      by_cases hc : 0 < dur.1 ∨ (50 : ℚ) < (dur.2 : ℚ) / 1000000
      · rw [if_pos hc]
        exact iff_of_false (by simp) (fun hn => hn (hiff.mp hc))
      · rw [if_neg hc]
        exact iff_of_true rfl (fun hr => hc (hiff.mpr hr))
  · rintro code rfl
    exact ⟨rfl, rfl⟩
  · rintro ttc dur code rfl
    exact ⟨rfl, rfl⟩

/-- Witness for C8 at the spec's example: 10 ms acquisition and 20 ms total
round trip gives an available result with no warning; an acquisition failure
gives an unavailable result whose `info` is the error code. -/
theorem healthcheck_captures_failures_and_flags_only_slow_roundtrips_witness :
    (healthcheck (fun _ => "10 ms") "mysql://h:3306/d"
        (PoolTestOutcome.queryOk (0, 10000000) (0, 20000000))).available = true ∧
    (healthcheck (fun _ => "10 ms") "mysql://h:3306/d"
        (PoolTestOutcome.queryOk (0, 10000000) (0, 20000000))).warning = none ∧
    (healthcheck (fun _ => "10 ms") "mysql://h:3306/d"
        (PoolTestOutcome.acquireFail "ECONNREFUSED")).available = false ∧
    (healthcheck (fun _ => "10 ms") "mysql://h:3306/d"
        (PoolTestOutcome.acquireFail "ECONNREFUSED")).info = some "ECONNREFUSED" := by
  have h1 := healthcheck_captures_failures_and_flags_only_slow_roundtrips
    (fun _ => "10 ms") "mysql://h:3306/d"
    (PoolTestOutcome.queryOk (0, 10000000) (0, 20000000))
  have h2 := healthcheck_captures_failures_and_flags_only_slow_roundtrips
    (fun _ => "10 ms") "mysql://h:3306/d"
    (PoolTestOutcome.acquireFail "ECONNREFUSED")
  refine ⟨(h1.2.1 _ _ rfl).1, ?_, (h2.2.2.1 _ rfl).1, (h2.2.2.1 _ rfl).2⟩
  exact (h1.2.1 _ _ rfl).2.2.2.2.2.mpr (by decide)
